/-
Verification of the pragma_sdk data model (`src/pragma_sdk/models.py`)
against its natural-language specification.

The Python source is shallowly embedded: pydantic models become Lean
structures, methods become pure functions (stateful methods return the
updated value explicitly), `raise` becomes `Except.error`, and arbitrary
decoded Python payloads (`Any`) become the inductive `PyVal`.  Parts of
the repository that are referenced by its tests but are not present under
`src/` (the `OwnerReference` type, `is_field_ref_marker`,
`Resource.set_owner`, `Resource.apply`, `Resource.wait_ready` and the
ambient-context module) are modelled from the specification text; each
such definition carries a doc comment saying so.
-/
import Mathlib

namespace PragmaSdk

/-- Errors raised by the SDK core, by Python exception class. -/
inductive SdkError where
  | runtimeError (msg : String)
  | notImplementedError (msg : String)
  | validationError (msg : String)
  deriving DecidableEq, Repr

/-- `LifecycleState` enum from `models.py`: DRAFT, PENDING, PROCESSING,
READY, FAILED. -/
inductive LifecycleState where
  | draft
  | pending
  | processing
  | ready
  | failed
  deriving DecidableEq, Repr

/-- String value of each `LifecycleState` member (it is a `StrEnum`). -/
def LifecycleState.toStr : LifecycleState → String
  | .draft => "draft"
  | .pending => "pending"
  | .processing => "processing"
  | .ready => "ready"
  | .failed => "failed"

/-- Embedding of `format_resource_id` from `models.py`:
`f"resource:{provider}_{resource}_{name}"`. -/
def format_resource_id (provider resource name : String) : String :=
  "resource:" ++ provider ++ "_" ++ resource ++ "_" ++ name

/-- A decoded Python value (the `Any` that marker predicates receive):
`None`, booleans, integers, strings, lists, and string-keyed mappings. -/
inductive PyVal where
  | none
  | bool (b : Bool)
  | int (n : Int)
  | str (s : String)
  | list (xs : List PyVal)
  | dict (kvs : List (String × PyVal))

/-- `dict.get(k)`: first value bound to key `k`, if any. -/
def dictGet (kvs : List (String × PyVal)) (k : String) : Option PyVal :=
  (kvs.find? (fun kv => kv.1 = k)).map (fun kv => kv.2)

/-- Keys of a mapping. -/
def dictKeys (kvs : List (String × PyVal)) : List String :=
  kvs.map (fun kv => kv.1)

/-- Python's `x is True` applied to an optional decoded value: true
exactly for the boolean `True` (never for truthy non-booleans). -/
def pyIsTrue (o : Option PyVal) : Bool :=
  match o with
  | some (.bool b) => b
  | _ => false

/-- Embedding of `is_dependency_marker` from `models.py`: `value` is a
dict, the four required keys are a subset of its keys, and
`value.get("__dependency__") is True`. -/
def is_dependency_marker (value : PyVal) : Bool :=
  match value with
  | .dict kvs =>
      (["__dependency__", "provider", "resource", "name"].all
        (fun k => (dictKeys kvs).contains k))
      && pyIsTrue (dictGet kvs "__dependency__")
  | _ => false

/-- Modelled from the spec: `is_field_ref_marker` is referenced by the
repository's tests but its definition is not under `src/`.  Per the spec,
a field-ref marker is a mapping with the required keys
`__field_ref__` (whose value is `true`), `ref` and `resolved_value`;
non-mappings and mappings missing a required key or with a falsy flag are
rejected, extra keys are ignored (mirroring `is_dependency_marker`). -/
def is_field_ref_marker (value : PyVal) : Bool :=
  match value with
  | .dict kvs =>
      (["__field_ref__", "ref", "resolved_value"].all
        (fun k => (dictKeys kvs).contains k))
      && pyIsTrue (dictGet kvs "__field_ref__")
  | _ => false

/-- `ResourceReference` from `models.py`: provider/resource/name triple. -/
structure ResourceReference where
  provider : String
  resource : String
  name : String
  deriving DecidableEq, Repr

/-- `ResourceReference.id` property. -/
def ResourceReference.id (r : ResourceReference) : String :=
  format_resource_id r.provider r.resource r.name

/-- `FieldReference` from `models.py`: a `ResourceReference` plus a
`field` path. -/
structure FieldReference extends ResourceReference where
  field : String
  deriving DecidableEq, Repr

/-- Modelled from the spec: `OwnerReference` is imported from
`pragma_sdk.models` by the repository's tests but its definition is not
under `src/`.  Per the spec it is a triple structurally identical to
`ResourceReference` but a distinct type, with structural value equality
and the same derived id. -/
structure OwnerReference where
  provider : String
  resource : String
  name : String
  deriving DecidableEq, Repr

/-- `OwnerReference.id`, derived exactly as for `ResourceReference`. -/
def OwnerReference.id (r : OwnerReference) : String :=
  format_resource_id r.provider r.resource r.name

/-- `Dependency[ResourceT]` from `models.py`: the `dependency_marker`
bool field (alias `__dependency__`, default `True`), the triple, and the
`_resolved` private attribute (default `None`). -/
structure Dependency (ρ : Type) where
  dependency_marker : Bool := true
  provider : String
  resource : String
  name : String
  resolved : Option ρ := Option.none

/-- `Dependency.id` property. -/
def Dependency.id {ρ : Type} (d : Dependency ρ) : String :=
  format_resource_id d.provider d.resource d.name

/-- `Dependency.resolve` from `models.py`: return the cached `_resolved`
value if present, otherwise raise `RuntimeError` with the dependency id
and the fixed message. -/
def Dependency.resolve {ρ : Type} (d : Dependency ρ) : Except SdkError ρ :=
  match d.resolved with
  | some r => .ok r
  | Option.none =>
      .error (.runtimeError
        ("Dependency '" ++ d.id ++ "' not resolved. "
          ++ "The dependent resource may not be READY yet."))

/-- `Dependency.resolve` as an explicit state transformer: the result of
the call together with the dependency's state after the call.  The source
method reads `_resolved` and assigns nothing, so the post-state is the
pre-state. -/
def Dependency.resolveS {ρ : Type} (d : Dependency ρ) :
    Except SdkError ρ × Dependency ρ :=
  match d.resolved with
  | some r => (.ok r, d)
  | Option.none =>
      (.error (.runtimeError
        ("Dependency '" ++ d.id ++ "' not resolved. "
          ++ "The dependent resource may not be READY yet.")), d)

/-- `model_dump(by_alias=True)` of a `Dependency`: pydantic serializes
the declared fields under their serialization aliases; the private
attribute `_resolved` is never part of a pydantic dump. -/
def Dependency.model_dump {ρ : Type} (d : Dependency ρ) :
    List (String × PyVal) :=
  [("__dependency__", .bool d.dependency_marker),
   ("provider", .str d.provider),
   ("resource", .str d.resource),
   ("name", .str d.name)]

/-- `Resource[ConfigT, OutputsT]` from `models.py`.  The class-level
`provider`/`resource` constants become per-value fields here (each
concrete subclass fixes them).  The `owner_references` field (default
empty) is modelled from the spec: the tests use it but the `Resource`
body under `src/` is truncated before it. -/
structure Resource (γ ω : Type) where
  provider : String
  resource : String
  name : String
  config : γ
  dependencies : List ResourceReference := []
  outputs : Option ω := Option.none
  error : Option String := Option.none
  lifecycle_state : LifecycleState := .draft
  tags : Option (List String) := Option.none
  owner_references : List OwnerReference := []

/-- `Resource.id` property. -/
def Resource.id {γ ω : Type} (r : Resource γ ω) : String :=
  format_resource_id r.provider r.resource r.name

/-- Modelled from the spec: `Resource.set_owner(other)` is exercised by
the repository's tests but is not in the truncated `Resource` body under
`src/`.  Per the spec it derives an `OwnerReference` from `other`'s
provider/resource/name and appends it to `owner_references` unless a
structurally equal one is already present, and returns `self`. -/
def Resource.set_owner {γ ω γ₂ ω₂ : Type} (r : Resource γ ω)
    (other : Resource γ₂ ω₂) : Resource γ ω :=
  let ref : OwnerReference :=
    ⟨other.provider, other.resource, other.name⟩
  if ref ∈ r.owner_references then r
  else { r with owner_references := r.owner_references ++ [ref] }

/-- The payload `apply()` serializes and hands to the ambient context:
`{provider, resource, name, config, owner_references, tags (if set)}`. -/
structure ApplyPayload (γ : Type) where
  provider : String
  resource : String
  name : String
  config : γ
  owner_references : List OwnerReference
  tags : Option (List String)

/-- The Runtime Context Protocol: `apply_resource` and `wait_for_state`
(the latter returning the reached lifecycle state and an optional
outputs payload, already parsed into the resource's outputs type).
Timeouts and real time are outside this embedding. -/
structure RuntimeContext (γ ω : Type) where
  applyResource : ApplyPayload γ → Except SdkError Unit
  waitForState : String → LifecycleState →
    Except SdkError (LifecycleState × Option ω)

/-- Modelled from the spec: `Resource.apply()` is exercised by the
repository's tests but is not in the truncated `Resource` body under
`src/`.  The ambient runtime context and ambient current owner are
passed explicitly.  Per the spec: with no ambient context it raises
`RuntimeError` ("must be called from within a provider lifecycle
handler"); otherwise it appends the ambient owner to
`owner_references` unless already present, sets `lifecycle_state` to
PENDING, hands the serialized payload to the context's
`apply_resource` (whose errors propagate unchanged) and returns
`self`. -/
def Resource.apply {γ ω : Type} (r : Resource γ ω)
    (ctx? : Option (RuntimeContext γ ω)) (owner? : Option OwnerReference) :
    Except SdkError (Resource γ ω) :=
  match ctx? with
  | Option.none =>
      .error (.runtimeError
        "apply() must be called from within a provider lifecycle handler")
  | some ctx =>
      let r₁ :=
        match owner? with
        | some o =>
            if o ∈ r.owner_references then r
            else { r with owner_references := r.owner_references ++ [o] }
        | Option.none => r
      let r₂ := { r₁ with lifecycle_state := LifecycleState.pending }
      let payload : ApplyPayload γ :=
        ⟨r₂.provider, r₂.resource, r₂.name, r₂.config,
          r₂.owner_references, r₂.tags⟩
      match ctx.applyResource payload with
      | .ok _ => .ok r₂
      | .error e => .error e

/-- Modelled from the spec: `Resource.wait_ready()` is exercised by the
repository's tests but is not in the truncated `Resource` body under
`src/`.  Per the spec: with no ambient context it raises the same
`RuntimeError` as `apply()`; otherwise it delegates to the context's
`wait_for_state(self.id, READY, timeout)`, updates `lifecycle_state`
from the response, replaces `outputs` when the response carries an
outputs payload, and returns `self`; context errors propagate
unchanged. -/
def Resource.wait_ready {γ ω : Type} (r : Resource γ ω)
    (ctx? : Option (RuntimeContext γ ω)) : Except SdkError (Resource γ ω) :=
  match ctx? with
  | Option.none =>
      .error (.runtimeError
        "wait_ready() must be called from within a provider lifecycle handler")
  | some ctx =>
      match ctx.waitForState r.id LifecycleState.ready with
      | .error e => .error e
      | .ok (st, outs?) =>
          .ok { r with
                lifecycle_state := st,
                outputs := match outs? with
                  | some o => some o
                  | Option.none => r.outputs }

/-- Pydantic construction under `model_config = {"extra": "forbid"}`
(set on `Config` in `models.py`): validating an input mapping fails with
a validation error as soon as some input key is not a declared field;
otherwise the input is accepted. -/
def Config.model_validate (declared : List String)
    (input : List (String × PyVal)) : Except SdkError (List (String × PyVal)) :=
  match input.find? (fun kv => !(declared.contains kv.1)) with
  | some kv => .error (.validationError (kv.1 ++ ": Extra inputs are not permitted"))
  | Option.none => .ok input

/-- Keyword arguments of `Resource.__init__` / `model_validate`: `name`
and `config` are required, every other field may be omitted (`none`),
in which case pydantic fills in the field's declared default. -/
structure ResourceArgs (γ ω : Type) where
  name : String
  config : γ
  dependencies : Option (List ResourceReference) := Option.none
  outputs : Option ω := Option.none
  error : Option String := Option.none
  lifecycle_state : Option LifecycleState := Option.none
  tags : Option (List String) := Option.none
  owner_references : Option (List OwnerReference) := Option.none

/-- Pydantic construction of a `Resource`: supplied keyword arguments
are taken as given, omitted ones get the declared defaults
(`lifecycle_state` defaults to DRAFT, lists to empty, the rest to
`None`). -/
def Resource.construct {γ ω : Type} (provider resource : String)
    (args : ResourceArgs γ ω) : Resource γ ω :=
  { provider := provider,
    resource := resource,
    name := args.name,
    config := args.config,
    dependencies := args.dependencies.getD [],
    outputs := args.outputs,
    error := args.error,
    lifecycle_state := args.lifecycle_state.getD LifecycleState.draft,
    tags := args.tags,
    owner_references := args.owner_references.getD [] }

/-- A concrete `Resource` subclass: its class name, its class-level
`provider`/`resource` constants, and, for each of the three lifecycle
handlers, either an override or `none` (no override). -/
structure ResourceClass (γ ω : Type) where
  className : String
  provider : String
  resource : String
  create_impl : Option (Resource γ ω → Except SdkError ω) := Option.none
  update_impl : Option (Resource γ ω → γ → Except SdkError ω) := Option.none
  delete_impl : Option (Resource γ ω → Except SdkError Unit) := Option.none

/-- Instantiating a subclass: plain pydantic construction with the
class-level constants; the handler overrides are never consulted. -/
def ResourceClass.instantiate {γ ω : Type} (cls : ResourceClass γ ω)
    (args : ResourceArgs γ ω) : Resource γ ω :=
  Resource.construct cls.provider cls.resource args

/-- Calling `on_create` on an instance of a subclass: Python method
resolution runs the override when there is one, else the base-class
body from `models.py`, which raises
`NotImplementedError(f"{self.__class__.__name__} must implement on_create()")`. -/
def ResourceClass.on_create {γ ω : Type} (cls : ResourceClass γ ω)
    (self : Resource γ ω) : Except SdkError ω :=
  match cls.create_impl with
  | some f => f self
  | Option.none =>
      .error (.notImplementedError
        (cls.className ++ " must implement on_create()"))

/-- Calling `on_update`: the override when there is one, else the
base-class `NotImplementedError` from `models.py`. -/
def ResourceClass.on_update {γ ω : Type} (cls : ResourceClass γ ω)
    (self : Resource γ ω) (previous_config : γ) : Except SdkError ω :=
  match cls.update_impl with
  | some f => f self previous_config
  | Option.none =>
      .error (.notImplementedError
        (cls.className ++ " must implement on_update()"))

/-- Calling `on_delete`: the override when there is one, else the
base-class `NotImplementedError` from `models.py`. -/
def ResourceClass.on_delete {γ ω : Type} (cls : ResourceClass γ ω)
    (self : Resource γ ω) : Except SdkError Unit :=
  match cls.delete_impl with
  | some f => f self
  | Option.none =>
      .error (.notImplementedError
        (cls.className ++ " must implement on_delete()"))

/-! ### Theorems -/

/-- Splitting at the first occurrence of a separator is unambiguous when
neither prefix contains the separator. -/
theorem append_sep_inj {α : Type} {sep : α} :
    ∀ (a₁ a₂ : List α) {t₁ t₂ : List α}, sep ∉ a₁ → sep ∉ a₂ →
      a₁ ++ sep :: t₁ = a₂ ++ sep :: t₂ → a₁ = a₂ ∧ t₁ = t₂ := by
  intro a₁
  induction a₁ with
  | nil =>
    intro a₂ t₁ t₂ h₁ h₂ heq
    cases a₂ with
    | nil => simpa using heq
    | cons b bs =>
      simp only [List.nil_append, List.cons_append, List.cons.injEq] at heq
      exact absurd (heq.1 ▸ List.mem_cons_self b bs) h₂
  | cons a as ih =>
    intro a₂ t₁ t₂ h₁ h₂ heq
    cases a₂ with
    | nil =>
      simp only [List.cons_append, List.nil_append, List.cons.injEq] at heq
      exact absurd (heq.1 ▸ List.mem_cons_self a as) h₁
    | cons b bs =>
      simp only [List.cons_append, List.cons.injEq] at heq
      have h₁' : sep ∉ as := fun hm => h₁ (List.mem_cons_of_mem a hm)
      have h₂' : sep ∉ bs := fun hm => h₂ (List.mem_cons_of_mem b hm)
      obtain ⟨he, ht⟩ := ih bs h₁' h₂' heq.2
      exact ⟨by rw [heq.1, he], ht⟩

/-- C1 (counterexample): `format_resource_id` is not injective on all
string triples — the two distinct triples `("a_b","c","d")` and
`("a","b_c","d")` produce the same id `"resource:a_b_c_d"`. -/
theorem format_resource_id_injective_cex :
    format_resource_id "a_b" "c" "d" = format_resource_id "a" "b_c" "d" ∧
    ("a_b", "c", "d") ≠ (("a", "b_c", "d") : String × String × String) := by
  refine ⟨rfl, ?_⟩
  decide

/-- C1 (amended): `format_resource_id provider resource name` is exactly
`"resource:" ++ provider ++ "_" ++ resource ++ "_" ++ name`, and the
function is injective on triples whose provider and resource components
contain no underscore. -/
theorem format_resource_id_spec :
    (∀ p r n : String,
      format_resource_id p r n = "resource:" ++ p ++ "_" ++ r ++ "_" ++ n) ∧
    (∀ p₁ r₁ n₁ p₂ r₂ n₂ : String,
      '_' ∉ p₁.data → '_' ∉ r₁.data →
      '_' ∉ p₂.data → '_' ∉ r₂.data →
      format_resource_id p₁ r₁ n₁ = format_resource_id p₂ r₂ n₂ →
      p₁ = p₂ ∧ r₁ = r₂ ∧ n₁ = n₂) := by
  refine ⟨fun p r n => rfl, ?_⟩
  intro p₁ r₁ n₁ p₂ r₂ n₂ hp₁ hr₁ hp₂ hr₂ heq
  have hd := congrArg String.data heq
  simp only [format_resource_id, String.data_append, List.append_assoc,
    List.singleton_append] at hd
  have hd₂ := List.append_cancel_left hd
  obtain ⟨hpd, hrest⟩ := append_sep_inj p₁.data p₂.data hp₁ hp₂ hd₂
  obtain ⟨hrd, hnd⟩ := append_sep_inj r₁.data r₂.data hr₁ hr₂ hrest
  exact ⟨String.ext hpd, String.ext hrd, String.ext hnd⟩

/-- C1 (witness for the amended theorem), at the triple
`("postgres","database","my-db")` compared with itself. -/
theorem format_resource_id_spec_witness :
    ('_' ∉ ("postgres" : String).data ∧
      '_' ∉ ("database" : String).data ∧
      format_resource_id "postgres" "database" "my-db" =
        format_resource_id "postgres" "database" "my-db") ∧
    (("postgres" : String) = "postgres" ∧ ("database" : String) = "database" ∧
      ("my-db" : String) = "my-db") :=
  ⟨⟨by decide, by decide, rfl⟩,
    format_resource_id_spec.2 "postgres" "database" "my-db"
      "postgres" "database" "my-db"
      (by decide) (by decide) (by decide) (by decide) rfl⟩

/-- C2: calling `apply()` or `wait_ready()` with no ambient runtime
context set fails with a `RuntimeError` whose message contains
"must be called from within a provider lifecycle handler". -/
theorem apply_wait_ready_require_context {γ ω : Type} :
    ∀ (r : Resource γ ω) (owner? : Option OwnerReference),
      (∃ m, r.apply Option.none owner? = .error (.runtimeError m) ∧
        ("must be called from within a provider lifecycle handler" : String).data
          <:+: m.data) ∧
      (∃ m, r.wait_ready Option.none = .error (.runtimeError m) ∧
        ("must be called from within a provider lifecycle handler" : String).data
          <:+: m.data) := by
  intro r owner?
  refine ⟨⟨_, rfl, ?_⟩, ⟨_, rfl, ?_⟩⟩ <;> decide

/-- C3: `resolve()` on a dependency with an unpopulated cache fails with
a `RuntimeError` whose message contains the dependency's id and the words
"not resolved"; on a populated cache it returns the cached instance. -/
theorem dependency_resolve_spec {ρ : Type} :
    ∀ d : Dependency ρ,
      (d.resolved = Option.none →
        ∃ m, d.resolve = .error (.runtimeError m) ∧
          d.id.data <:+: m.data ∧
          ("not resolved" : String).data <:+: m.data) ∧
      (∀ x, d.resolved = some x → d.resolve = .ok x) := by
  intro d
  constructor
  · intro h
    refine ⟨"Dependency '" ++ d.id ++ "' not resolved. "
        ++ "The dependent resource may not be READY yet.", ?_, ?_, ?_⟩
    · simp only [Dependency.resolve, h]
    · exact ⟨("Dependency '" : String).data,
        ("' not resolved. " : String).data
          ++ ("The dependent resource may not be READY yet." : String).data,
        by simp [String.data_append]⟩
    · have h₁ : ("not resolved" : String).data <:+:
          ("' not resolved. " : String).data := by decide
      exact h₁.trans ⟨("Dependency '" : String).data ++ d.id.data,
        ("The dependent resource may not be READY yet." : String).data,
        by simp [String.data_append]⟩
  · intro x h
    simp only [Dependency.resolve, h]

/-- A concrete unpopulated dependency. -/
def depUnresolved : Dependency Unit :=
  { provider := "postgres", resource := "database", name := "my-db" }

/-- A concrete dependency whose cache the runtime has populated. -/
def depResolved : Dependency Unit :=
  { provider := "test", resource := "stub", name := "my-db",
    resolved := some () }

/-- C3 (witness): the two branches of `dependency_resolve_spec` at
concrete dependencies. -/
theorem dependency_resolve_spec_witness :
    (depUnresolved.resolved = Option.none ∧
      ∃ m, depUnresolved.resolve = .error (.runtimeError m) ∧
        depUnresolved.id.data <:+: m.data ∧
        ("not resolved" : String).data <:+: m.data) ∧
    (depResolved.resolved = some () ∧ depResolved.resolve = .ok ()) :=
  ⟨⟨rfl, (dependency_resolve_spec depUnresolved).1 rfl⟩,
    ⟨rfl, (dependency_resolve_spec depResolved).2 () rfl⟩⟩

/-- `pyIsTrue` holds exactly on the boolean `True`. -/
theorem pyIsTrue_iff (o : Option PyVal) :
    pyIsTrue o = true ↔ o = some (.bool true) := by
  match o with
  | Option.none => simp [pyIsTrue]
  | some (.bool b) => cases b <;> simp [pyIsTrue]
  | some .none => simp [pyIsTrue]
  | some (.int n) => simp [pyIsTrue]
  | some (.str s) => simp [pyIsTrue]
  | some (.list xs) => simp [pyIsTrue]
  | some (.dict kvs) => simp [pyIsTrue]

/-- C4: `is_dependency_marker` holds exactly on mappings whose keys
include `__dependency__`, `provider`, `resource`, `name` with the flag
bound to `True` (extra keys permitted); `is_field_ref_marker` holds
exactly on mappings whose keys include `__field_ref__` (bound to
`True`), `ref`, `resolved_value`; both are total and false on
everything else. -/
theorem marker_predicates_spec :
    ∀ v : PyVal,
      (is_dependency_marker v = true ↔
        ∃ kvs, v = .dict kvs ∧
          "__dependency__" ∈ dictKeys kvs ∧ "provider" ∈ dictKeys kvs ∧
          "resource" ∈ dictKeys kvs ∧ "name" ∈ dictKeys kvs ∧
          dictGet kvs "__dependency__" = some (.bool true)) ∧
      (is_field_ref_marker v = true ↔
        ∃ kvs, v = .dict kvs ∧
          "__field_ref__" ∈ dictKeys kvs ∧ "ref" ∈ dictKeys kvs ∧
          "resolved_value" ∈ dictKeys kvs ∧
          dictGet kvs "__field_ref__" = some (.bool true)) := by
  intro v
  cases v <;>
    simp [is_dependency_marker, is_field_ref_marker, pyIsTrue_iff, and_assoc]

/-- A serialized dependency marker with an extra `ref` key. -/
def depMarkerEx : PyVal :=
  .dict [("__dependency__", .bool true), ("provider", .str "test"),
    ("resource", .str "database"), ("name", .str "my-db"),
    ("ref", .dict [])]

/-- A serialized field-ref marker. -/
def fieldRefMarkerEx : PyVal :=
  .dict [("__field_ref__", .bool true), ("ref", .dict []),
    ("resolved_value", .str "postgres://localhost/db")]

/-- C4 (witness): both characterizations applied at concrete markers. -/
theorem marker_predicates_spec_witness :
    is_dependency_marker depMarkerEx = true ∧
    is_field_ref_marker fieldRefMarkerEx = true ∧
    is_dependency_marker (.str "not a dict") = false ∧
    is_field_ref_marker .none = false :=
  ⟨(marker_predicates_spec depMarkerEx).1.mpr
      ⟨_, rfl, by decide, by decide, by decide, by decide, rfl⟩,
    (marker_predicates_spec fieldRefMarkerEx).2.mpr
      ⟨_, rfl, by decide, by decide, by decide, rfl⟩,
    by decide, by decide⟩

/-- C5 (counterexample): the `__dependency__` marker is an ordinary
bool field with default `True` (`populate_by_name=True`), so a
`Dependency` can be constructed with the marker set to `False`; its
serialization is then not the claimed mapping. -/
theorem dependency_model_dump_cex :
    ({ dependency_marker := false, provider := "p", resource := "r",
       name := "n" } : Dependency Unit).model_dump ≠
      [("__dependency__", .bool true), ("provider", .str "p"),
       ("resource", .str "r"), ("name", .str "n")] := by
  intro h
  simp [Dependency.model_dump] at h

/-- C5 (amended): for every `Dependency` whose `__dependency__` marker
field holds its default value `True`, the serialization is exactly
`{"__dependency__": true, provider, resource, name}`; for every
`Dependency` whatsoever the serialization has exactly those four keys
and is independent of the resolved-value cache, so the cache never
appears under any key. -/
theorem dependency_model_dump_spec {ρ : Type} :
    ∀ d : Dependency ρ,
      (d.dependency_marker = true →
        d.model_dump =
          [("__dependency__", .bool true), ("provider", .str d.provider),
           ("resource", .str d.resource), ("name", .str d.name)]) ∧
      (∀ c : Option ρ,
        ({ d with resolved := c } : Dependency ρ).model_dump = d.model_dump) ∧
      dictKeys d.model_dump =
        ["__dependency__", "provider", "resource", "name"] := by
  intro d
  exact ⟨fun h => by simp [Dependency.model_dump, h], fun c => rfl, rfl⟩

/-- C5 (witness for the amended theorem) at a populated dependency. -/
theorem dependency_model_dump_spec_witness :
    depResolved.dependency_marker = true ∧
    depResolved.model_dump =
      [("__dependency__", .bool true), ("provider", .str "test"),
       ("resource", .str "stub"), ("name", .str "my-db")] :=
  ⟨rfl, (dependency_model_dump_spec depResolved).1 rfl⟩

/-- C6: on a populated dependency, every one of an unbounded number of
successive `resolve()` calls returns the very cached instance and leaves
the dependency's state unchanged. -/
theorem dependency_resolve_idempotent {ρ : Type} :
    ∀ (d : Dependency ρ) (x : ρ), d.resolved = some x →
      d.resolveS.1 = .ok x ∧
      d.resolveS.2 = d ∧
      d.resolveS.2.resolveS.1 = .ok x ∧
      d.resolveS.2.resolveS.2.resolveS.1 = .ok x ∧
      (∀ n : Nat, (fun s : Dependency ρ => s.resolveS.2)^[n] d = d) := by
  intro d x h
  have hs : d.resolveS = (.ok x, d) := by simp only [Dependency.resolveS, h]
  refine ⟨by simp [hs], by simp [hs], by simp [hs], by simp [hs], ?_⟩
  intro n
  induction n with
  | zero => rfl
  | succ k ih =>
      rw [Function.iterate_succ_apply', ih]
      show d.resolveS.2 = d
      rw [hs]

/-- C6 (witness): three successive calls on a concrete populated
dependency all return the cached instance, state unchanged. -/
theorem dependency_resolve_idempotent_witness :
    depResolved.resolved = some () ∧
    depResolved.resolveS.1 = .ok () ∧
    (fun s : Dependency Unit => s.resolveS.2)^[3] depResolved =
      depResolved :=
  ⟨rfl, (dependency_resolve_idempotent depResolved () rfl).1,
    (dependency_resolve_idempotent depResolved () rfl).2.2.2.2 3⟩

/-- The `OwnerReference` that `set_owner`/auto-ownership derive from a
resource's provider/resource/name. -/
def ownerRefOf {γ ω : Type} (x : Resource γ ω) : OwnerReference :=
  ⟨x.provider, x.resource, x.name⟩

/-- C7: `set_owner(other)` appends the `OwnerReference` derived from
`other` unless a structurally equal one is present; it is idempotent,
preserves insertion order and freedom from duplicates, records distinct
owners in call order, and returns the same resource (all other fields
untouched). -/
theorem set_owner_spec {γ ω γ₂ ω₂ : Type} :
    ∀ (r : Resource γ ω) (other : Resource γ₂ ω₂),
      (ownerRefOf other ∈ r.owner_references → r.set_owner other = r) ∧
      (ownerRefOf other ∉ r.owner_references →
        (r.set_owner other).owner_references
          = r.owner_references ++ [ownerRefOf other]) ∧
      (r.set_owner other).set_owner other = r.set_owner other ∧
      ownerRefOf other ∈ (r.set_owner other).owner_references ∧
      (r.owner_references.Nodup → (r.set_owner other).owner_references.Nodup) ∧
      r.owner_references <+: (r.set_owner other).owner_references ∧
      (r.set_owner other).provider = r.provider ∧
      (r.set_owner other).name = r.name ∧
      (r.set_owner other).config = r.config ∧
      (r.set_owner other).lifecycle_state = r.lifecycle_state ∧
      (∀ other₂ : Resource γ₂ ω₂,
        ownerRefOf other ∉ r.owner_references →
        ownerRefOf other₂ ∉ r.owner_references →
        ownerRefOf other₂ ≠ ownerRefOf other →
        ((r.set_owner other).set_owner other₂).owner_references
          = r.owner_references ++ [ownerRefOf other, ownerRefOf other₂]) := by
  intro r other
  by_cases h : ownerRefOf other ∈ r.owner_references
  · refine ⟨fun _ => ?_, fun hn => absurd h hn, ?_, ?_, ?_, ?_, ?_, ?_, ?_, ?_, ?_⟩
    all_goals
      simp only [Resource.set_owner, ownerRefOf] at h ⊢
    · rw [if_pos h]
    · rw [if_pos h, if_pos h]
    · rw [if_pos h]; exact h
    · rw [if_pos h]; exact fun hd => hd
    · rw [if_pos h]
    · rw [if_pos h]
    · rw [if_pos h]
    · rw [if_pos h]
    · rw [if_pos h]
    · intro other₂ hn
      exact absurd h hn
  · refine ⟨fun hm => absurd hm h, fun _ => ?_, ?_, ?_, ?_, ?_, ?_, ?_, ?_, ?_, ?_⟩
    all_goals
      simp only [Resource.set_owner, ownerRefOf] at h ⊢
    · rw [if_neg h]
    · rw [if_neg h]
      have hmem : (⟨other.provider, other.resource, other.name⟩ : OwnerReference)
          ∈ r.owner_references ++ [⟨other.provider, other.resource, other.name⟩] := by
        simp
      simp only [if_pos hmem]
    · rw [if_neg h]; simp
    · intro hd
      rw [if_neg h]
      refine hd.append (List.nodup_singleton _) fun a ha hb => ?_
      rw [List.mem_singleton] at hb
      exact h (hb ▸ ha)
    · rw [if_neg h]; exact ⟨[⟨other.provider, other.resource, other.name⟩], rfl⟩
    · rw [if_neg h]
    · rw [if_neg h]
    · rw [if_neg h]
    · rw [if_neg h]
    · intro other₂ _ hn₂ hne
      rw [if_neg h]
      have hnotmem : (⟨other₂.provider, other₂.resource, other₂.name⟩ : OwnerReference)
          ∉ r.owner_references ++ [⟨other.provider, other.resource, other.name⟩] := by
        simp only [List.mem_append, List.mem_singleton]
        rintro (hc | hc)
        · exact hn₂ hc
        · exact hne hc
      rw [if_neg hnotmem]
      simp

/-- A concrete resource with no owners yet. -/
def stubChild : Resource Unit Unit :=
  { provider := "test", resource := "stub", name := "my-resource",
    config := () }

/-- A first concrete owning resource. -/
def stubParent1 : Resource Unit Unit :=
  { provider := "test", resource := "stub", name := "parent-1",
    config := () }

/-- A second, distinct concrete owning resource. -/
def stubParent2 : Resource Unit Unit :=
  { provider := "test", resource := "stub", name := "parent-2",
    config := () }

/-- C7 (witness): a fresh owner is appended, and two distinct owners are
recorded in call order. -/
theorem set_owner_spec_witness :
    (ownerRefOf stubParent1 ∉ stubChild.owner_references ∧
      (stubChild.set_owner stubParent1).owner_references
        = stubChild.owner_references ++ [ownerRefOf stubParent1]) ∧
    (ownerRefOf stubParent2 ∉ stubChild.owner_references ∧
      ownerRefOf stubParent2 ≠ ownerRefOf stubParent1 ∧
      ((stubChild.set_owner stubParent1).set_owner stubParent2).owner_references
        = stubChild.owner_references
            ++ [ownerRefOf stubParent1, ownerRefOf stubParent2]) :=
  ⟨⟨by decide, (set_owner_spec stubChild stubParent1).2.1 (by decide)⟩,
    ⟨by decide, by decide,
      (set_owner_spec stubChild stubParent1).2.2.2.2.2.2.2.2.2.2 stubParent2
        (by decide) (by decide) (by decide)⟩⟩

/-- C8: under `extra = "forbid"` (set on `Config`), construction with
any input key that is not a declared field fails with a validation
error, and every successfully constructed value carries only declared
fields. -/
theorem config_extra_forbid_spec :
    ∀ (declared : List String) (input : List (String × PyVal)),
      (∀ kv, kv ∈ input → kv.1 ∉ declared →
        ∃ m, Config.model_validate declared input
          = .error (.validationError m)) ∧
      (∀ out, Config.model_validate declared input = .ok out →
        ∀ kv, kv ∈ out → kv.1 ∈ declared) := by
  intro declared input
  cases hfind : input.find? (fun kv => !(declared.contains kv.1)) with
  | some kv₀ =>
      constructor
      · intro kv _ _
        exact ⟨kv₀.1 ++ ": Extra inputs are not permitted",
          by simp only [Config.model_validate]; rw [hfind]⟩
      · intro out hok
        simp only [Config.model_validate] at hok
        rw [hfind] at hok
        exact Except.noConfusion hok
  | none =>
      have hall := List.find?_eq_none.mp hfind
      constructor
      · intro kv hmem hnot
        exfalso
        have h₁ := hall kv hmem
        simp only [Bool.not_eq_true', Bool.not_eq_true] at h₁
        exact hnot (by simpa using h₁)
      · intro out hok kv hmem
        have hout : out = input := by
          simp only [Config.model_validate] at hok
          rw [hfind] at hok
          exact (Except.ok.inj hok).symm
        have h₁ := hall kv (hout ▸ hmem)
        simp only [Bool.not_eq_true', Bool.not_eq_true] at h₁
        simpa using h₁

/-- C8 (witness): a `Config` schema declaring `name`/`size` rejects an
input with the undeclared key `unknown_field`. -/
theorem config_extra_forbid_spec_witness :
    (("unknown_field", PyVal.str "bad")
        ∈ [("name", PyVal.str "test"), ("unknown_field", PyVal.str "bad")] ∧
      "unknown_field" ∉ ["name", "size"]) ∧
    ∃ m, Config.model_validate ["name", "size"]
        [("name", PyVal.str "test"), ("unknown_field", PyVal.str "bad")]
      = .error (.validationError m) :=
  ⟨⟨List.mem_cons_of_mem _ (List.mem_cons_self _ _), by decide⟩,
    (config_extra_forbid_spec ["name", "size"]
        [("name", PyVal.str "test"), ("unknown_field", PyVal.str "bad")]).1
      ("unknown_field", PyVal.str "bad")
      (List.mem_cons_of_mem _ (List.mem_cons_self _ _)) (by decide)⟩

/-- C9 (counterexample): construction is not restricted to DRAFT — the
`lifecycle_state` keyword is an ordinary field, so a `Resource` can be
constructed directly in READY. -/
theorem resource_initial_state_cex :
    (Resource.construct "test" "stub"
        { name := "my-resource", config := (),
          lifecycle_state := some LifecycleState.ready }
      : Resource Unit Unit).lifecycle_state = LifecycleState.ready ∧
    LifecycleState.ready ≠ LifecycleState.draft :=
  ⟨rfl, by decide⟩

/-- C9 (amended): every `Resource` constructed without an explicit
`lifecycle_state` argument starts in DRAFT — DRAFT is the default
initial state; another state is obtained at construction only by
supplying it explicitly. -/
theorem resource_initial_state_spec {γ ω : Type} :
    ∀ (provider resource : String) (args : ResourceArgs γ ω),
      args.lifecycle_state = Option.none →
      (Resource.construct provider resource args).lifecycle_state
        = LifecycleState.draft := by
  intro p rs args h
  simp [Resource.construct, h]

/-- C9 (witness): a freshly constructed stub resource is in DRAFT. -/
theorem resource_initial_state_spec_witness :
    (({ name := "my-resource", config := () }
        : ResourceArgs Unit Unit).lifecycle_state = Option.none) ∧
    (Resource.construct "test" "stub"
        ({ name := "my-resource", config := () } : ResourceArgs Unit Unit)
      ).lifecycle_state = LifecycleState.draft :=
  ⟨rfl, resource_initial_state_spec "test" "stub"
    { name := "my-resource", config := () } rfl⟩

/-- C10: a subclass overriding none of the three handlers still
instantiates (instantiation never consults the overrides), and each
unoverridden handler fails only when invoked, with a
`NotImplementedError` naming the concrete subclass. -/
theorem resource_unimplemented_handlers_spec {γ ω : Type} :
    ∀ (cls : ResourceClass γ ω) (args : ResourceArgs γ ω),
      cls.create_impl = Option.none → cls.update_impl = Option.none →
      cls.delete_impl = Option.none →
      ((cls.instantiate args).name = args.name ∧
        (cls.instantiate args).provider = cls.provider ∧
        (cls.instantiate args).resource = cls.resource) ∧
      (∀ cls₂ : ResourceClass γ ω, cls₂.className = cls.className →
        cls₂.provider = cls.provider → cls₂.resource = cls.resource →
        cls₂.instantiate args = cls.instantiate args) ∧
      (∃ m, cls.on_create (cls.instantiate args)
          = .error (.notImplementedError m) ∧
        cls.className.data <:+: m.data ∧
        ("must implement on_create()" : String).data <:+: m.data) ∧
      (∀ prev, ∃ m, cls.on_update (cls.instantiate args) prev
          = .error (.notImplementedError m) ∧
        cls.className.data <:+: m.data ∧
        ("must implement on_update()" : String).data <:+: m.data) ∧
      (∃ m, cls.on_delete (cls.instantiate args)
          = .error (.notImplementedError m) ∧
        cls.className.data <:+: m.data ∧
        ("must implement on_delete()" : String).data <:+: m.data) := by
  intro cls args h₁ h₂ h₃
  refine ⟨⟨rfl, rfl, rfl⟩, ?_, ?_, ?_, ?_⟩
  · intro cls₂ _ hp hr
    simp [ResourceClass.instantiate, hp, hr]
  · refine ⟨cls.className ++ " must implement on_create()",
      by simp only [ResourceClass.on_create, h₁], ?_, ?_⟩
    · exact ⟨[], (" must implement on_create()" : String).data,
        by simp [String.data_append]⟩
    · have hsub : ("must implement on_create()" : String).data <:+:
          (" must implement on_create()" : String).data := by decide
      exact hsub.trans ⟨cls.className.data, [],
        by simp [String.data_append]⟩
  · intro prev
    refine ⟨cls.className ++ " must implement on_update()",
      by simp only [ResourceClass.on_update, h₂], ?_, ?_⟩
    · exact ⟨[], (" must implement on_update()" : String).data,
        by simp [String.data_append]⟩
    · have hsub : ("must implement on_update()" : String).data <:+:
          (" must implement on_update()" : String).data := by decide
      exact hsub.trans ⟨cls.className.data, [],
        by simp [String.data_append]⟩
  · refine ⟨cls.className ++ " must implement on_delete()",
      by simp only [ResourceClass.on_delete, h₃], ?_, ?_⟩
    · exact ⟨[], (" must implement on_delete()" : String).data,
        by simp [String.data_append]⟩
    · have hsub : ("must implement on_delete()" : String).data <:+:
          (" must implement on_delete()" : String).data := by decide
      exact hsub.trans ⟨cls.className.data, [],
        by simp [String.data_append]⟩

/-- A concrete subclass that overrides none of the three handlers. -/
def bareResourceClass : ResourceClass Unit Unit :=
  { className := "BareResource", provider := "test", resource := "bare" }

/-- Arguments used to instantiate `bareResourceClass`. -/
def bareArgs : ResourceArgs Unit Unit :=
  { name := "my-resource", config := () }

/-- C10 (witness): the handler-less concrete subclass instantiates, and
calling its `on_create` raises `NotImplementedError` naming it. -/
theorem resource_unimplemented_handlers_spec_witness :
    (bareResourceClass.create_impl = Option.none ∧
      bareResourceClass.update_impl = Option.none ∧
      bareResourceClass.delete_impl = Option.none) ∧
    (bareResourceClass.instantiate bareArgs).name = "my-resource" ∧
    (∃ m, bareResourceClass.on_create (bareResourceClass.instantiate bareArgs)
        = .error (.notImplementedError m) ∧
      ("BareResource" : String).data <:+: m.data ∧
      ("must implement on_create()" : String).data <:+: m.data) :=
  ⟨⟨rfl, rfl, rfl⟩,
    (resource_unimplemented_handlers_spec bareResourceClass bareArgs
      rfl rfl rfl).1.1,
    (resource_unimplemented_handlers_spec bareResourceClass bareArgs
      rfl rfl rfl).2.2.1⟩

end PragmaSdk
